import Mathlib

/-!
# Vanta front end — Query Dispatch & Interaction State Machine

Shallow embedding of the core view controller of the Vanta command
palette (`src/routes/+page.svelte` together with
`src/lib/components/SearchInput.svelte` and `src/lib/types.ts`).

Strings are modelled as `List Char` (`Str`).  JavaScript's
`String.prototype.trim`, `indexOf(" ")`, `slice`, `toLowerCase`,
`startsWith` and `includes` are embedded as executable functions on
`Str`.  The asynchronous handlers of the controller are split at their
`await` points: `handleSearchStart` is the synchronous prefix of
`handleSearch` up to the backend call it issues, `handleSearchComplete`
is the continuation that runs when that call settles.  Backend calls
and other side effects are recorded in an explicit `Effect` trace.
-/

abbrev Str := List Char

/-- JavaScript whitespace as relevant here: the ASCII whitespace
characters plus NBSP (JS `trim` also strips a few rarer Unicode
space characters, which never occur in the queries considered). -/
def isJsWs (c : Char) : Bool :=
  c = ' ' || c = '\t' || c = '\n' || c = '\r' || c = '\x0b' || c = '\x0c' || c = '\xa0'

/-- `l` with trailing JS whitespace removed. -/
def jsTrimEnd (l : Str) : Str :=
  (l.reverse.dropWhile isJsWs).reverse

/-- JS `String.prototype.trim`: strip leading and trailing whitespace. -/
def jsTrim (l : Str) : Str :=
  jsTrimEnd (l.dropWhile isJsWs)

/-- JS `indexOf(" ")`, as an `Option Nat` (JS returns `-1` for `none`).
NOTE: the source searches for the space character `" "` only, not for
arbitrary whitespace. -/
def idxOfSpace : Str → Option Nat
  | [] => none
  | c :: cs => if c = ' ' then some 0 else (idxOfSpace cs).map (fun i => i + 1)

/-- JS `startsWith`: `hasPre p l` holds when `p` is an initial segment of `l`. -/
def hasPre : Str → Str → Bool
  | [], _ => true
  | _ :: _, [] => false
  | p :: ps, c :: cs => p == c && hasPre ps cs

/-- JS `includes` (substring containment). -/
def containsSub : Str → Str → Bool
  | [], needle => needle.isEmpty
  | c :: rest, needle => hasPre needle (c :: rest) || containsSub rest needle

/-- JS `toLowerCase` (ASCII case folding, which is what the script
keywords in question use). -/
def lowerStr (s : Str) : Str := s.map Char.toLower

/-! ## Data model (`src/lib/types.ts`) -/

/-- `ScriptEntry` from `types.ts` (fields not read by the core logic are
kept for fidelity). -/
structure ScriptEntry where
  keyword : Str
  name : Option Str := none
  description : Option Str := none
  icon : Option Str := none
  path : Str := []
  deriving DecidableEq

inductive ResultSource
  | application
  | calculator
  | window
  | clipboard
  | file
  | script (keyword : Str)
  deriving DecidableEq

structure ResultAction where
  label : Str
  exec : Str
  shortcut : Option Str := none
  deriving DecidableEq

/-- `SearchResult` from `types.ts`. -/
structure SearchResult where
  title : Str
  subtitle : Option Str := none
  icon : Option Str := none
  exec : Str
  score : Int := 0
  matchIndices : List Nat := []
  source : ResultSource
  id : Option Nat := none
  actions : Option (List ResultAction) := none
  deriving DecidableEq

/-- The source's `ScriptAction.type` values `"copy" | "open" | "run"`. -/
inductive SAKind
  | copy
  | openUrl
  | run
  deriving DecidableEq

structure ScriptAction where
  kind : SAKind      -- source field name: `type`
  value : Str
  deriving DecidableEq

inductive Urgency
  | low
  | normal
  | critical
  deriving DecidableEq

structure ScriptItem where
  title : Str
  subtitle : Option Str := none
  icon : Option Str := none
  action : Option ScriptAction := none
  badge : Option Str := none
  urgency : Urgency := Urgency.normal
  deriving DecidableEq

structure ClipboardItem where
  id : Nat
  content : Str
  timestamp : Str
  deriving DecidableEq

/-! ## Mode resolution (`detectScriptQuery`, `+page.svelte` lines 189–202) -/

/-- The interaction mode a query resolves to (Launcher vs Script; the
clipboard and settings surfaces are separate state fields below, as in
the source). -/
inductive Mode
  | launcher
  | script (keyword args : Str)
  deriving DecidableEq

/-- `detectScriptQuery` from `+page.svelte`:
trim the query; split at the first *space character* (`indexOf(" ")`,
with the source's `firstSpace > 0` guard); trim the args; look the
keyword up case-insensitively in the registry; on a match return the
*registered* keyword together with the args. -/
def detectScriptQuery (scripts : List ScriptEntry) (q : Str) : Option (Str × Str) :=
  let trimmed := jsTrim q
  if trimmed = [] then none
  else
    let keyword := match idxOfSpace trimmed with
      | some i => if 0 < i then trimmed.take i else trimmed
      | none => trimmed
    let args := match idxOfSpace trimmed with
      | some i => if 0 < i then jsTrim (trimmed.drop (i + 1)) else []
      | none => []
    match scripts.find? (fun e => lowerStr e.keyword == lowerStr keyword) with
    | some e => some (e.keyword, args)
    | none => none

/-- The mode-resolution step of `handleSearch`: an (after trimming)
empty query is Launcher (suggestions reload); a registered keyword is
Script; everything else is Launcher (normal search). -/
def resolve (scripts : List ScriptEntry) (q : Str) : Mode :=
  if jsTrim q = [] then Mode.launcher
  else match detectScriptQuery scripts q with
    | some (kw, args) => Mode.script kw args
    | none => Mode.launcher

/-- Modelled from the claim's wording verbatim: the query is split at
the first *whitespace* character (of any kind) into keyword and args.
Used only to state what the claim predicts, for comparison with
`resolve`. -/
def resolveSpecWs (scripts : List ScriptEntry) (q : Str) : Mode :=
  let t := jsTrim q
  if t = [] then Mode.launcher
  else
    let kw := t.takeWhile (fun c => !(isJsWs c))
    let rest := t.dropWhile (fun c => !(isJsWs c))
    let args := jsTrim (rest.drop 1)
    match scripts.find? (fun e => lowerStr e.keyword == lowerStr kw) with
    | some e => Mode.script e.keyword args
    | none => Mode.launcher

/-- The claim as amended: split at the first *space character* (U+0020)
rather than at the first whitespace; otherwise as stated (trim; empty is
Launcher; case-insensitive exact-token lookup; a match yields the
registered keyword with surrounding-trimmed args; otherwise Launcher). -/
def resolveSpecSpace (scripts : List ScriptEntry) (q : Str) : Mode :=
  let t := jsTrim q
  if t = [] then Mode.launcher
  else
    let kw := t.takeWhile (fun c => c != ' ')
    let rest := t.dropWhile (fun c => c != ' ')
    let args := jsTrim (rest.drop 1)
    match scripts.find? (fun e => lowerStr e.keyword == lowerStr kw) with
    | some e => Mode.script e.keyword args
    | none => Mode.launcher

/-! ## Session state (`+page.svelte` top-level `$state` fields) -/

/-- `view` — `"launcher" | "settings"`. -/
inductive View
  | launcher
  | settings
  deriving DecidableEq

/-- `currentMode` — `"launcher" | "clipboard"`. -/
inductive CurMode
  | launcher
  | clipboard
  deriving DecidableEq

/-- The mutable state of the view controller (the fields of
`+page.svelte` that the query-dispatch logic reads or writes; purely
presentational fields such as config, themes and blur mode are
omitted). -/
structure SessionState where
  query : Str
  results : List SearchResult
  scriptResults : List ScriptItem
  isScriptMode : Bool
  activeScriptKeyword : Str
  selectedIndex : Nat
  searchTime : Option Nat
  currentMode : CurMode
  view : View
  actionInFlight : Bool
  isVisible : Bool
  availableScripts : List ScriptEntry
  clipboardHistory : List ClipboardItem
  deriving DecidableEq

/-- `totalItems`, the `$derived` count used for navigation. -/
def totalItems (s : SessionState) : Nat :=
  if s.isScriptMode then s.scriptResults.length else s.results.length

/-- A backend request issued by the controller, identified (as in the
spec's vocabulary) by what it was issued for. -/
inductive PendingKind
  | search (q : Str)
  | script (keyword args : Str)
  | suggestions
  deriving DecidableEq

/-- Observable side effects of the synchronous part of a handler:
backend invocations, the clipboard write, and writes to the
`actionInFlight` guard (recorded so their order relative to backend
calls can be stated). -/
inductive Effect
  | setGuard (b : Bool)
  | request (p : PendingKind)
  | invokeLaunch (exec : Str)
  | invokeOpenPath (p : Str)
  | invokeOpenUrl (u : Str)
  | clipboardWrite (v : Str)
  | invokeHide
  deriving DecidableEq

/-- The settlement of a backend request (`invoke` resolving or
rejecting); `elapsed` is the measured wall-clock duration in ms. -/
inductive Outcome
  | okResults (rs : List SearchResult) (elapsed : Nat)
  | okScript (items : List ScriptItem) (elapsed : Nat)
  | okSuggestions (rs : List SearchResult)
  | failed (msg : Str)
  deriving DecidableEq

def fillChars : Str := "fill:".toList
def copyChars : Str := "copy:".toList
def installChars : Str := "install:".toList

/-- `updateClipboardSuggestions` (`+page.svelte` lines 154–183):
locale date formatting is abstracted by keeping the timestamp string. -/
def clipResult (it : ClipboardItem) : SearchResult :=
  { title := (it.content.map (fun c => if c = '\n' then ' ' else c)).take 100
    subtitle := some it.timestamp
    icon := none
    exec := copyChars ++ it.content
    score := 0
    source := ResultSource.clipboard
    id := some it.id
    matchIndices := [] }

def updateClipboardSuggestions (s : SessionState) (q : Str) : SessionState :=
  if q = [] then
    { s with results := s.clipboardHistory.map clipResult, selectedIndex := 0 }
  else
    let lower := lowerStr q
    let filtered := s.clipboardHistory.filter (fun it => containsSub (lowerStr it.content) lower)
    { s with results := filtered.map clipResult, selectedIndex := 0 }

/-- Synchronous prefix of `handleSearch` (`+page.svelte` lines 217–288),
up to the backend call it issues; the issued call is recorded as a
`request` effect.  The clipboard branch is fully synchronous and issues
nothing. -/
def handleSearchStart (s : SessionState) (q : Str) : SessionState × List Effect :=
  if s.currentMode = CurMode.clipboard then
    (updateClipboardSuggestions s q, [])
  else if jsTrim q = [] then
    ({ s with isScriptMode := false, activeScriptKeyword := [], scriptResults := [],
              searchTime := none },
     [Effect.request PendingKind.suggestions])
  else
    match detectScriptQuery s.availableScripts q with
    | some (kw, args) =>
      ({ s with isScriptMode := true, activeScriptKeyword := kw, results := [] },
       [Effect.request (PendingKind.script kw args)])
    | none =>
      ({ s with isScriptMode := false, activeScriptKeyword := [], scriptResults := [] },
       [Effect.request (PendingKind.search q)])

/-- The synthetic error item built in the `execute_script` catch block. -/
def scriptErrorItem (kw msg : Str) : ScriptItem :=
  { title := "Script Error: ".toList ++ kw
    subtitle := some msg
    icon := some ("error".toList)
    urgency := Urgency.critical }

/-- Continuation of `handleSearch` (and of `loadSuggestions`) that runs
when the backend call issued for `p` settles with outcome `o`.  Note
the source performs *no* comparison of `p` against the current state:
the continuation applies its response unconditionally.  The final
catch-all covers payload/request mismatches that cannot occur (each
call's response type is fixed). -/
def handleSearchComplete (s : SessionState) (p : PendingKind) (o : Outcome) : SessionState :=
  match p, o with
  | PendingKind.search _, Outcome.okResults rs e =>
      { s with results := rs, selectedIndex := 0, searchTime := some e }
  | PendingKind.search _, Outcome.failed _ =>
      { s with results := [], searchTime := none }
  | PendingKind.script _ _, Outcome.okScript items e =>
      { s with scriptResults := items, selectedIndex := 0, searchTime := some e }
  | PendingKind.script kw _, Outcome.failed m =>
      { s with scriptResults := [scriptErrorItem kw m], searchTime := none }
  | PendingKind.suggestions, Outcome.okSuggestions rs =>
      { s with results := rs,
               selectedIndex := if rs.length > 0 then 0 else s.selectedIndex }
  | PendingKind.suggestions, Outcome.failed _ => s
  | _, _ => s

/-- `resetAndHide` (`+page.svelte` lines 350–364): clears the query and
script state, keeps `results` (deliberately, per the source comment),
reloads suggestions, and asks the backend to hide the window. -/
def resetAndHide (s : SessionState) : SessionState × List Effect :=
  ({ s with query := [], scriptResults := [], isScriptMode := false,
            currentMode := CurMode.launcher, activeScriptKeyword := [],
            selectedIndex := 0, searchTime := none, isVisible := false },
   [Effect.request PendingKind.suggestions, Effect.invokeHide])

/-- Synchronous prefix of `handleActivate` (`+page.svelte` lines
290–319): `actionInFlight = true` is the first statement, then the
dispatch on the `exec` prefix issues the backend call of the branch
(the `fill:` branch instead runs `handleSearch` on the filled query).
The continuations after the awaits (reset-and-hide on success, the
guard-clearing grace timer) are not needed by the properties below. -/
def handleActivateStart (s : SessionState) (r : SearchResult) : SessionState × List Effect :=
  let s1 := { s with actionInFlight := true }
  if hasPre fillChars r.exec then
    let q := r.exec.drop 5
    let s2 := { s1 with query := q }
    let out := handleSearchStart s2 q
    (out.1, Effect.setGuard true :: out.2)
  else if hasPre copyChars r.exec then
    (s1, [Effect.setGuard true, Effect.clipboardWrite (r.exec.drop 5)])
  else if hasPre installChars r.exec then
    (s1, [Effect.setGuard true, Effect.invokeLaunch r.exec])
  else if r.source = ResultSource.file then
    (s1, [Effect.setGuard true, Effect.invokeOpenPath r.exec])
  else
    (s1, [Effect.setGuard true, Effect.invokeLaunch r.exec])

/-- Synchronous prefix of `handleScriptActivate` (`+page.svelte` lines
321–345): items without an `action` return before anything happens. -/
def handleScriptActivateStart (s : SessionState) (it : ScriptItem) : SessionState × List Effect :=
  match it.action with
  | none => (s, [])
  | some a =>
    let s1 := { s with actionInFlight := true }
    match a.kind with
    | SAKind.copy => (s1, [Effect.setGuard true, Effect.clipboardWrite a.value])
    | SAKind.openUrl => (s1, [Effect.setGuard true, Effect.invokeOpenUrl a.value])
    | SAKind.run => (s1, [Effect.setGuard true, Effect.invokeLaunch a.value])

/-! ## Keyboard handling (`handleKeydown`, `+page.svelte` lines 375–444) -/

inductive Key
  | arrowDown
  | arrowUp
  | enter
  | tab (shift : Bool)
  | ctrlComma
  | escape
  | other
  deriving DecidableEq

/-- The query filled in by Tab on an `install:` item:
`"install " + exec.slice(8) + " "`. -/
def installQuery (exec : Str) : Str :=
  "install ".toList ++ exec.drop 8 ++ [' ']

/-- `handleKeydown`.  `Ctrl+,` toggles the settings view and is checked
first; in the settings view Escape and Enter return to the launcher and
all other keys are swallowed; with an empty active list every key is a
no-op; otherwise arrows move with wraparound (the source's
`selectedIndex <= 0` equals `= 0` on `Nat`), Enter activates, and Tab
checks the selected item's `exec` prefix before falling back to a
move.  (Escape is routed through the input component to `handleEscape`,
not through this handler, as in the source.) -/
def handleKeydown (s : SessionState) (k : Key) : SessionState × List Effect :=
  if k = Key.ctrlComma then
    ({ s with view := if s.view = View.launcher then View.settings else View.launcher }, [])
  else if s.view = View.settings then
    if k = Key.escape ∨ k = Key.enter then ({ s with view := View.launcher }, [])
    else (s, [])
  else if totalItems s = 0 then (s, [])
  else
    match k with
    | Key.arrowDown =>
      ({ s with selectedIndex := (s.selectedIndex + 1) % totalItems s }, [])
    | Key.arrowUp =>
      ({ s with selectedIndex :=
          if s.selectedIndex = 0 then totalItems s - 1 else s.selectedIndex - 1 }, [])
    | Key.enter =>
      if s.isScriptMode then
        match s.scriptResults.get? s.selectedIndex with
        | some it => handleScriptActivateStart s it
        | none =>
          match s.results.get? s.selectedIndex with
          | some r => handleActivateStart s r
          | none => (s, [])
      else
        match s.results.get? s.selectedIndex with
        | some r => handleActivateStart s r
        | none => (s, [])
    | Key.tab sh =>
      let moved : SessionState :=
        if sh then
          { s with selectedIndex :=
              if s.selectedIndex = 0 then totalItems s - 1 else s.selectedIndex - 1 }
        else
          { s with selectedIndex := (s.selectedIndex + 1) % totalItems s }
      if s.isScriptMode = false then
        match s.results.get? s.selectedIndex with
        | some r =>
          if hasPre fillChars r.exec then handleActivateStart s r
          else if hasPre installChars r.exec then
            let q := installQuery r.exec
            handleSearchStart { s with query := q } q
          else (moved, [])
        | none => (moved, [])
      else (moved, [])
    | _ => (s, [])

/-- A sequence of key events, accumulating the effect trace. -/
def runKeys (s : SessionState) (ks : List Key) : SessionState × List Effect :=
  ks.foldl (fun acc k =>
    let out := handleKeydown acc.1 k
    (out.1, acc.2 ++ out.2)) (s, [])

/-- Number of `launch_app` invocations in a trace. -/
def launchCount (effs : List Effect) : Nat :=
  effs.countP (fun e => match e with | Effect.invokeLaunch _ => true | _ => false)

/-! ## Event loop (searches racing with their responses) -/

/-- The requests recorded in an effect trace. -/
def pendingOf (effs : List Effect) : List PendingKind :=
  effs.filterMap (fun e => match e with | Effect.request p => some p | _ => none)

structure LoopState where
  sess : SessionState
  pending : List PendingKind
  deriving DecidableEq

/-- Events of the cooperative loop: a debounced search being issued for
the input's current content `q` (so the session's `query` is `q` at
that moment), or the settlement of the `i`-th outstanding request. -/
inductive LoopEv
  | issue (q : Str)
  | complete (i : Nat) (o : Outcome)

def stepLoop (ls : LoopState) (ev : LoopEv) : LoopState :=
  match ev with
  | LoopEv.issue q =>
    let out := handleSearchStart { ls.sess with query := q } q
    { sess := out.1, pending := ls.pending ++ pendingOf out.2 }
  | LoopEv.complete i o =>
    match ls.pending.get? i with
    | some p => { sess := handleSearchComplete ls.sess p o,
                  pending := ls.pending.eraseIdx i }
    | none => ls

def runLoop (ls : LoopState) (evs : List LoopEv) : LoopState :=
  evs.foldl stepLoop ls

/-! ## Debounce (`SearchInput.svelte`, `handleInput`, lines 16–23)

`setTimeout`/`clearTimeout` are modelled with explicit timer ids:
`live` holds the ids that are scheduled and neither cancelled nor
fired, `current` is the id stored in `debounceTimer`.  A `fire` event
models the 50 ms delay elapsing for a live timer (its callback reads
the *current* `query`, as the closure in the source does); keystrokes
arriving within the debounce window are modelled by the absence of a
`fire` event between them. -/

structure DebState where
  query : Str
  current : Option Nat
  nextId : Nat
  live : List Nat
  calls : List Str
  deriving DecidableEq

def debInit : DebState :=
  { query := [], current := none, nextId := 0, live := [], calls := [] }

/-- `handleInput`: the input binding has already written the new query;
the handler clears the stored timer (if any) and schedules a fresh
one. -/
def handleInput (s : DebState) (q : Str) : DebState :=
  let live1 := match s.current with
    | some id => s.live.erase id
    | none => s.live
  { query := q, current := some s.nextId, nextId := s.nextId + 1,
    live := live1 ++ [s.nextId], calls := s.calls }

/-- A scheduled timer elapsing: its callback runs `onSearch(query)`. -/
def fireTimer (s : DebState) (id : Nat) : DebState :=
  if id ∈ s.live then
    { s with live := s.live.erase id, calls := s.calls ++ [s.query] }
  else s

inductive DebEv
  | key (q : Str)
  | fire (id : Nat)

def debStep (s : DebState) (e : DebEv) : DebState :=
  match e with
  | DebEv.key q => handleInput s q
  | DebEv.fire id => fireTimer s id

def debRun (s : DebState) (evs : List DebEv) : DebState :=
  evs.foldl debStep s

/-- Fire the currently stored timer (the only one that can be live). -/
def fireCurrent (s : DebState) : DebState :=
  match s.current with
  | some id => fireTimer s id
  | none => s

/-- At most one live timer, and it is the stored one. -/
def DebInv (s : DebState) : Prop :=
  s.live = [] ∨ ∃ i, s.live = [i] ∧ s.current = some i

/-! ## Concrete fixtures used by the witnesses and counterexamples -/

/-- Registry entry used in the C3 counterexample. -/
def helloEntry : ScriptEntry := { keyword := "hello".toList }

/-- A query whose keyword and args are separated by a TAB, which is
whitespace but not a space character. -/
def tabQuery : Str := "hello\tworld".toList

/-- The state right after mount: empty query, empty lists, launcher. -/
def initState : SessionState :=
  { query := [], results := [], scriptResults := [], isScriptMode := false,
    activeScriptKeyword := [], selectedIndex := 0, searchTime := none,
    currentMode := CurMode.launcher, view := View.launcher,
    actionInFlight := false, isVisible := true, availableScripts := [],
    clipboardHistory := [] }

/-- A script item with no `action`. -/
def plainScriptItem : ScriptItem := { title := "note".toList }

/-- An ordinary launchable application result. -/
def appItem : SearchResult :=
  { title := "Firefox".toList, exec := "firefox".toList,
    source := ResultSource.application }

/-- A result whose `exec` carries the `install:` continuation. -/
def installItem : SearchResult :=
  { title := "Install foo".toList, exec := "install:foo".toList,
    source := ResultSource.application }

/-- A result whose `exec` carries the `fill:` continuation. -/
def fillItem : SearchResult :=
  { title := "foo suggestion".toList, exec := "fill:foo".toList,
    source := ResultSource.application }

/-- The response payloads of the two racing searches in C1. -/
def rA : SearchResult :=
  { title := "result for a".toList, exec := "a.desktop".toList,
    source := ResultSource.application }

def rAB : SearchResult :=
  { title := "result for ab".toList, exec := "ab.desktop".toList,
    source := ResultSource.application }

/-- Launcher state showing one previous result (used by C2, C4, C7). -/
def oneItemState : SessionState := { initState with results := [appItem] }

/-- Launcher state with the `install:` item selected. -/
def installState : SessionState := { initState with results := [installItem] }

/-- Launcher state with the `fill:` item selected. -/
def fillState : SessionState := { initState with results := [fillItem] }

/-- Launcher state with three plain results, selection at 0. -/
def threeItemState : SessionState :=
  { initState with results := [appItem, rA, rAB] }

/-- Script mode, four script items, selection moved to the last one —
reachable by running a script that returned four items and pressing
ArrowDown three times. -/
def fourScriptState : SessionState :=
  { initState with
      isScriptMode := true,
      activeScriptKeyword := "hello".toList,
      scriptResults := [plainScriptItem, plainScriptItem, plainScriptItem, plainScriptItem],
      selectedIndex := 3 }

/-- Initial loop state: fresh session, no outstanding request. -/
def initLoop : LoopState := { sess := initState, pending := [] }

/-- C1 race: issue `search("a")`, then `search("ab")`, then let the
response for `"ab"` arrive first and the response for `"a"` second. -/
def c1Events : List LoopEv :=
  [LoopEv.issue ("a".toList),
   LoopEv.issue ("ab".toList),
   LoopEv.complete 1 (Outcome.okResults [rAB] 5),
   LoopEv.complete 0 (Outcome.okResults [rA] 9)]

/-- Launcher state with one item selected and an activation already in
flight. -/
def inFlightState : SessionState := { oneItemState with actionInFlight := true }

/-- Clipboard-mode session state. -/
def clipState : SessionState := { initState with currentMode := CurMode.clipboard }

/-! ## Auxiliary lemmas about the string primitives -/

theorem idxOfSpace_none : ∀ (l : Str), idxOfSpace l = none →
    l.takeWhile (fun c => c != ' ') = l ∧ l.dropWhile (fun c => c != ' ') = []
  | [], _ => by simp
  | c :: cs, h => by
    by_cases hc : c = ' '
    · simp [idxOfSpace, hc] at h
    · have h2 : idxOfSpace cs = none := by
        simpa [idxOfSpace, hc] using h
      have ih := idxOfSpace_none cs h2
      simp [List.takeWhile_cons, List.dropWhile_cons, hc, ih.1, ih.2]

theorem idxOfSpace_some : ∀ (l : Str) (i : Nat), idxOfSpace l = some i →
    l.takeWhile (fun c => c != ' ') = l.take i ∧
    l.dropWhile (fun c => c != ' ') = l.drop i
  | [], i, h => by simp [idxOfSpace] at h
  | c :: cs, i, h => by
    by_cases hc : c = ' '
    · have hi : i = 0 := by simpa [idxOfSpace, hc] using h.symm
      subst hi
      simp [List.takeWhile_cons, List.dropWhile_cons, hc]
    · have h2 : ∃ j, idxOfSpace cs = some j ∧ j + 1 = i := by
        simpa [idxOfSpace, hc] using h
      obtain ⟨j, hj, hji⟩ := h2
      have ih := idxOfSpace_some cs j hj
      subst hji
      simp [List.takeWhile_cons, List.dropWhile_cons, hc, ih.1, ih.2]

theorem idxOfSpace_cons_ne (c : Char) (cs : Str) (hc : ¬ c = ' ') :
    ∀ i, idxOfSpace (c :: cs) = some i → 0 < i := by
  intro i h
  have h2 : ∃ j, idxOfSpace cs = some j ∧ j + 1 = i := by
    simpa [idxOfSpace, hc] using h
  obtain ⟨j, _, hji⟩ := h2
  omega

theorem dropWhile_sfx (p : Char → Bool) : ∀ (l : Str), ∃ t, t ++ l.dropWhile p = l
  | [] => ⟨[], rfl⟩
  | c :: cs => by
    by_cases hc : p c
    · obtain ⟨t, ht⟩ := dropWhile_sfx p cs
      exact ⟨c :: t, by simp [List.dropWhile_cons, hc, ht]⟩
    · exact ⟨[], by simp [List.dropWhile_cons, hc]⟩

theorem dropWhile_head_false (p : Char → Bool) : ∀ (l : Str) (c : Char) (cs : Str),
    l.dropWhile p = c :: cs → p c = false
  | [], c, cs, h => by simp at h
  | a :: as, c, cs, h => by
    by_cases ha : p a
    · exact dropWhile_head_false p as c cs (by simpa [List.dropWhile_cons, ha] using h)
    · have h2 : a :: as = c :: cs := by simpa [List.dropWhile_cons, ha] using h
      cases h2
      simpa using ha

theorem jsTrimEnd_pre (l : Str) : ∃ t, jsTrimEnd l ++ t = l := by
  obtain ⟨t, ht⟩ := dropWhile_sfx isJsWs l.reverse
  refine ⟨t.reverse, ?_⟩
  have h2 := congrArg List.reverse ht
  simpa [jsTrimEnd] using h2

theorem jsTrim_head_not_ws (q : Str) (c : Char) (cs : Str) (h : jsTrim q = c :: cs) :
    isJsWs c = false := by
  obtain ⟨t, ht⟩ := jsTrimEnd_pre (q.dropWhile isJsWs)
  rw [jsTrim] at h
  rw [h] at ht
  exact dropWhile_head_false isJsWs q c (cs ++ t) (by simpa using ht.symm)

theorem jsTrim_head_ne_space (q : Str) (c : Char) (cs : Str) (h : jsTrim q = c :: cs) :
    ¬ c = ' ' := by
  intro hc
  have := jsTrim_head_not_ws q c cs h
  rw [hc] at this
  simp [isJsWs] at this

/-- C3 (amended). Mode resolution: for every query string and registry,
after trimming, an empty query resolves to Launcher; otherwise the
query is split at the first *space character* (U+0020) into keyword and
args (args trimmed of surrounding whitespace), the keyword is looked up
case-insensitively and exact-token-only in the registry, and a match
yields Script with the *registered* keyword and those args, while any
non-matching query yields Launcher.  Stated as: the code's resolver
agrees with `resolveSpecSpace`, the function written from the amended
wording. -/
theorem c3_mode_resolution (scripts : List ScriptEntry) (q : Str) :
    resolve scripts q = resolveSpecSpace scripts q := by
  unfold resolve resolveSpecSpace detectScriptQuery
  cases ht : jsTrim q with
  | nil => simp
  | cons c cs =>
    have hne : ¬ (c :: cs = ([] : Str)) := by simp
    have hcsp := jsTrim_head_ne_space q c cs ht
    simp only [hne, ite_false, if_false]
    cases hidx : idxOfSpace (c :: cs) with
    | none =>
      have hsplit := idxOfSpace_none (c :: cs) hidx
      rw [hsplit.1, hsplit.2]
      dsimp only
      cases hfind : List.find? (fun e => lowerStr e.keyword == lowerStr (c :: cs)) scripts with
      | none => simp
      | some e => simp [jsTrim, jsTrimEnd]
    | some i =>
      have hpos : 0 < i := idxOfSpace_cons_ne c cs hcsp i hidx
      have hsplit := idxOfSpace_some (c :: cs) i hidx
      rw [hsplit.1, hsplit.2]
      dsimp only
      rw [if_pos hpos, if_pos hpos]
      have hdrop : List.drop 1 (List.drop i (c :: cs)) = List.drop (i + 1) (c :: cs) := by
        rw [List.drop_drop, Nat.add_comm]
      rw [hdrop]
      cases hfind : List.find? (fun e => lowerStr e.keyword == lowerStr (List.take i (c :: cs))) scripts with
      | none => simp
      | some e => simp

/-- C3 counterexample.  The claim says the query is split at the first
*whitespace*; with registry `{keyword:"hello"}` and query
`"hello\tworld"` that reading predicts `Script{keyword="hello",
args="world"}` (`resolveSpecWs`), but the code splits only at a space
character (`indexOf(" ")`), finds none, looks up the whole string
`"hello\tworld"` and yields Launcher. -/
theorem c3_counterexample :
    resolve [helloEntry] tabQuery = Mode.launcher ∧
    resolveSpecWs [helloEntry] tabQuery = Mode.script ("hello".toList) "world".toList ∧
    Mode.launcher ≠ Mode.script ("hello".toList) "world".toList := by
  refine ⟨by decide, by decide, by decide⟩

/-- C9. Script-mode error surface: when the `execute_script` call fails,
the script item list is replaced by exactly one synthetic item of
urgency `critical` whose subtitle carries the failure's error text (and
whose title names the keyword), and the latency metric is cleared. -/
theorem c9_script_error_surface (s : SessionState) (kw args msg : Str) :
    handleSearchComplete s (PendingKind.script kw args) (Outcome.failed msg)
      = { s with scriptResults := [scriptErrorItem kw msg], searchTime := none } ∧
    (scriptErrorItem kw msg).urgency = Urgency.critical ∧
    (scriptErrorItem kw msg).subtitle = some msg ∧
    (scriptErrorItem kw msg).title = "Script Error: ".toList ++ kw := by
  exact ⟨rfl, rfl, rfl, rfl⟩

/-- C10. Activating a `ScriptItem` whose `action` field is absent is a
complete no-op: `handleScriptActivate` returns before setting
`actionInFlight` or invoking anything, so the session state is
unchanged and no effect is produced. -/
theorem c10_no_action_noop (s : SessionState) (it : ScriptItem)
    (h : it.action = none) :
    handleScriptActivateStart s it = (s, []) := by
  unfold handleScriptActivateStart
  rw [h]

theorem c10_no_action_noop_witness :
    plainScriptItem.action = none ∧
    handleScriptActivateStart initState plainScriptItem = (initState, []) :=
  ⟨rfl, c10_no_action_noop initState plainScriptItem rfl⟩

/-- C1 counterexample.  `search("a")` is issued, then `search("ab")`;
"ab"'s response arrives first, "a"'s response arrives second.  The code
applies every response unconditionally on arrival — there is no
request-token comparison in `handleSearch` — so the displayed list ends
up showing the results for `"a"`, the earlier query, which the claim
forbids. -/
theorem c1_counterexample :
    (runLoop initLoop c1Events).sess.results = [rA] ∧
    (runLoop initLoop c1Events).sess.query = "ab".toList ∧
    [rA] ≠ [rAB] := by
  refine ⟨by decide, by decide, by decide⟩

/-- C1 (amended). No stale-response discard exists: a search response is
applied unconditionally when it completes, so the displayed list
reflects the most recently *completed* response, regardless of whether
the user has since changed the input and regardless of which request it
answers. -/
theorem c1_last_completion_wins (ls : LoopState) (i : Nat) (q : Str)
    (rs : List SearchResult) (e : Nat)
    (h : ls.pending.get? i = some (PendingKind.search q)) :
    (stepLoop ls (LoopEv.complete i (Outcome.okResults rs e))).sess.results = rs := by
  simp only [stepLoop]
  rw [h]
  rfl

/-- Witness for C1 (amended): completing the lone pending `search("a")`
request overwrites the display even though the current query is `"ab"`. -/
theorem c1_last_completion_wins_witness :
    ({ sess := { initState with query := "ab".toList, results := [rAB] },
       pending := [PendingKind.search ("a".toList)] } : LoopState).pending.get? 0
        = some (PendingKind.search ("a".toList)) ∧
    (stepLoop { sess := { initState with query := "ab".toList, results := [rAB] },
                pending := [PendingKind.search ("a".toList)] }
        (LoopEv.complete 0 (Outcome.okResults [rA] 9))).sess.results = [rA] :=
  ⟨rfl, c1_last_completion_wins
    { sess := { initState with query := "ab".toList, results := [rAB] },
      pending := [PendingKind.search ("a".toList)] } 0 ("a".toList) [rA] 9 rfl⟩

/-! ## Auxiliary lemmas about the handlers -/

theorem searchStart_sel (t : SessionState) (q : Str)
    (hm : t.currentMode = CurMode.launcher) :
    (handleSearchStart t q).1.selectedIndex = t.selectedIndex := by
  unfold handleSearchStart
  rw [hm]
  rw [if_neg (by decide : ¬ (CurMode.launcher = CurMode.clipboard))]
  by_cases he : jsTrim q = []
  · rw [if_pos he]
  · rw [if_neg he]
    cases hd : detectScriptQuery t.availableScripts q with
    | none => rfl
    | some kwargs => cases kwargs with | mk kw args => rfl

theorem searchStart_guard (t : SessionState) (q : Str) :
    (handleSearchStart t q).1.actionInFlight = t.actionInFlight := by
  unfold handleSearchStart
  by_cases h1 : t.currentMode = CurMode.clipboard
  · rw [if_pos h1]
    unfold updateClipboardSuggestions
    by_cases h2 : q = []
    · rw [if_pos h2]
    · rw [if_neg h2]
  · rw [if_neg h1]
    by_cases he : jsTrim q = []
    · rw [if_pos he]
    · rw [if_neg he]
      cases hd : detectScriptQuery t.availableScripts q with
      | none => rfl
      | some kwargs => cases kwargs with | mk kw args => rfl

theorem searchStart_launchCount (t : SessionState) (q : Str) :
    launchCount (handleSearchStart t q).2 = 0 := by
  unfold handleSearchStart
  by_cases h1 : t.currentMode = CurMode.clipboard
  · rw [if_pos h1]; rfl
  · rw [if_neg h1]
    by_cases he : jsTrim q = []
    · rw [if_pos he]; rfl
    · rw [if_neg he]
      cases hd : detectScriptQuery t.availableScripts q with
      | none => rfl
      | some kwargs => cases kwargs with | mk kw args => rfl

theorem activateStart_sel (s : SessionState) (r : SearchResult)
    (hm : s.currentMode = CurMode.launcher) :
    (handleActivateStart s r).1.selectedIndex = s.selectedIndex := by
  unfold handleActivateStart
  by_cases h1 : hasPre fillChars r.exec
  · rw [if_pos h1]
    exact searchStart_sel _ _ hm
  · rw [if_neg h1]
    by_cases h2 : hasPre copyChars r.exec
    · rw [if_pos h2]
    · rw [if_neg h2]
      by_cases h3 : hasPre installChars r.exec
      · rw [if_pos h3]
      · rw [if_neg h3]
        by_cases h4 : r.source = ResultSource.file
        · rw [if_pos h4]
        · rw [if_neg h4]

theorem activateStart_guard_first (t : SessionState) (x : SearchResult) :
    (handleActivateStart t x).2.head? = some (Effect.setGuard true) ∧
    (handleActivateStart t x).1.actionInFlight = true := by
  unfold handleActivateStart
  by_cases h1 : hasPre fillChars x.exec
  · rw [if_pos h1]
    exact ⟨rfl, searchStart_guard _ _⟩
  · rw [if_neg h1]
    by_cases h2 : hasPre copyChars x.exec
    · rw [if_pos h2]; exact ⟨rfl, rfl⟩
    · rw [if_neg h2]
      by_cases h3 : hasPre installChars x.exec
      · rw [if_pos h3]; exact ⟨rfl, rfl⟩
      · rw [if_neg h3]
        by_cases h4 : x.source = ResultSource.file
        · rw [if_pos h4]; exact ⟨rfl, rfl⟩
        · rw [if_neg h4]; exact ⟨rfl, rfl⟩

theorem keydown_arrowDown (s : SessionState) (hv : s.view = View.launcher)
    (hn : totalItems s ≠ 0) :
    handleKeydown s Key.arrowDown =
      ({ s with selectedIndex := (s.selectedIndex + 1) % totalItems s }, []) := by
  unfold handleKeydown
  rw [if_neg (by decide : ¬ (Key.arrowDown = Key.ctrlComma))]
  rw [hv]
  rw [if_neg (by decide : ¬ (View.launcher = View.settings))]
  rw [if_neg hn]

theorem keydown_arrowUp (s : SessionState) (hv : s.view = View.launcher)
    (hn : totalItems s ≠ 0) :
    handleKeydown s Key.arrowUp =
      ({ s with selectedIndex :=
          if s.selectedIndex = 0 then totalItems s - 1 else s.selectedIndex - 1 }, []) := by
  unfold handleKeydown
  rw [if_neg (by decide : ¬ (Key.arrowUp = Key.ctrlComma))]
  rw [hv]
  rw [if_neg (by decide : ¬ (View.launcher = View.settings))]
  rw [if_neg hn]

theorem keydown_noitems (s : SessionState) (k : Key) (hv : s.view = View.launcher)
    (hk : ¬ k = Key.ctrlComma) (hn : totalItems s = 0) :
    handleKeydown s k = (s, []) := by
  unfold handleKeydown
  rw [if_neg hk]
  rw [hv]
  rw [if_neg (by decide : ¬ (View.launcher = View.settings))]
  rw [if_pos hn]

theorem totalItems_set_sel (s : SessionState) (n : Nat) :
    totalItems { s with selectedIndex := n } = totalItems s := rfl

theorem keydown_arrowDown_iter (s : SessionState) (hv : s.view = View.launcher)
    (hn : totalItems s ≠ 0) :
    ∀ n, ((fun t => (handleKeydown t Key.arrowDown).1)^[n + 1] s)
      = { s with selectedIndex := (s.selectedIndex + (n + 1)) % totalItems s } := by
  intro n
  induction n with
  | zero =>
    rw [Function.iterate_one]
    rw [keydown_arrowDown s hv hn]
  | succ m ih =>
    rw [Function.iterate_succ_apply', ih]
    rw [keydown_arrowDown
      ({ s with selectedIndex := (s.selectedIndex + (m + 1)) % totalItems s }) hv hn]
    dsimp only
    rw [totalItems_set_sel s ((s.selectedIndex + (m + 1)) % totalItems s)]
    rw [Nat.mod_add_mod]
    rfl

/-- C6. Navigation wraparound: in Browsing state (launcher view) with
`N > 0` items in the active mode's list, ArrowDown sets the selection to
`(selection+1) % N`; ArrowUp from selection `0` sets it to `N-1` and
otherwise to `selection-1`; and `N` consecutive ArrowDown presses
starting from selection `0` return the selection to `0`. -/
theorem c6_navigation_wraparound (s : SessionState)
    (hv : s.view = View.launcher) (hn : 0 < totalItems s) :
    (handleKeydown s Key.arrowDown).1.selectedIndex
        = (s.selectedIndex + 1) % totalItems s ∧
    (s.selectedIndex = 0 →
      (handleKeydown s Key.arrowUp).1.selectedIndex = totalItems s - 1) ∧
    (s.selectedIndex ≠ 0 →
      (handleKeydown s Key.arrowUp).1.selectedIndex = s.selectedIndex - 1) ∧
    (s.selectedIndex = 0 →
      ((fun t => (handleKeydown t Key.arrowDown).1)^[totalItems s] s).selectedIndex
        = 0) := by
  have hne : totalItems s ≠ 0 := Nat.pos_iff_ne_zero.mp hn
  refine ⟨?_, ?_, ?_, ?_⟩
  · rw [keydown_arrowDown s hv hne]
  · intro h0
    rw [keydown_arrowUp s hv hne]
    dsimp only
    rw [if_pos h0]
  · intro h0
    rw [keydown_arrowUp s hv hne]
    dsimp only
    rw [if_neg h0]
  · intro h0
    obtain ⟨m, hm⟩ : ∃ m, totalItems s = m + 1 :=
      ⟨totalItems s - 1, (Nat.succ_pred_eq_of_pos hn).symm⟩
    rw [hm]
    rw [keydown_arrowDown_iter s hv hne m]
    dsimp only
    rw [h0, hm]
    simp

/-- Witness for C6 on a concrete three-item launcher state. -/
theorem c6_navigation_wraparound_witness :
    threeItemState.view = View.launcher ∧ 0 < totalItems threeItemState ∧
    (handleKeydown threeItemState Key.arrowDown).1.selectedIndex = 1 ∧
    (handleKeydown threeItemState Key.arrowUp).1.selectedIndex = 2 ∧
    ((fun t => (handleKeydown t Key.arrowDown).1)^[totalItems threeItemState]
        threeItemState).selectedIndex = 0 := by
  have h := c6_navigation_wraparound threeItemState rfl (by decide)
  refine ⟨rfl, by decide, ?_, ?_, h.2.2.2 rfl⟩
  · rw [h.1]; decide
  · rw [h.2.1 rfl]; decide

/-- C8 counterexample.  In script mode with four items and the selection
on the last one (reachable by three ArrowDown presses), a failing
`execute_script` completion replaces the list with the single error item
but leaves `selectedIndex` untouched: the index is then `3` with a count
of `1`, violating `0 ≤ index < count`. -/
theorem c8_counterexample :
    (handleSearchComplete fourScriptState
        (PendingKind.script ("hello".toList) []) (Outcome.failed ("boom".toList))).selectedIndex = 3 ∧
    totalItems (handleSearchComplete fourScriptState
        (PendingKind.script ("hello".toList) []) (Outcome.failed ("boom".toList))) = 1 ∧
    ¬ (3 < 1) := by
  refine ⟨rfl, rfl, by decide⟩

/-- C8 (amended).  The selection invariant holds after the *successful*
operations and after reset — successful search and script completions
and `resetAndHide` set the index to `0`, navigation preserves
`0 ≤ index < count` when `count > 0` and is a no-op when `count = 0` —
but *failure* completions leave the index unchanged, so after a failed
script execution (or failed search, or an empty suggestions response)
the index may be `≥ count` (see the counterexample). -/
theorem c8_selection_invariant (s : SessionState) :
    (∀ q rs e, (handleSearchComplete s (PendingKind.search q)
        (Outcome.okResults rs e)).selectedIndex = 0) ∧
    (∀ kw args items e, (handleSearchComplete s (PendingKind.script kw args)
        (Outcome.okScript items e)).selectedIndex = 0) ∧
    ((resetAndHide s).1.selectedIndex = 0) ∧
    (s.view = View.launcher → 0 < totalItems s → s.selectedIndex < totalItems s →
      (handleKeydown s Key.arrowDown).1.selectedIndex
          < totalItems (handleKeydown s Key.arrowDown).1 ∧
      (handleKeydown s Key.arrowUp).1.selectedIndex
          < totalItems (handleKeydown s Key.arrowUp).1) ∧
    (s.view = View.launcher → totalItems s = 0 →
      handleKeydown s Key.arrowDown = (s, []) ∧
      handleKeydown s Key.arrowUp = (s, [])) := by
  refine ⟨fun q rs e => rfl, fun kw args items e => rfl, rfl, ?_, ?_⟩
  · intro hv hpos hlt
    have hne : totalItems s ≠ 0 := Nat.pos_iff_ne_zero.mp hpos
    constructor
    · rw [keydown_arrowDown s hv hne]
      dsimp only
      rw [totalItems_set_sel]
      exact Nat.mod_lt _ hpos
    · rw [keydown_arrowUp s hv hne]
      dsimp only
      by_cases h0 : s.selectedIndex = 0
      · rw [if_pos h0]
        show totalItems s - 1 < totalItems s
        omega
      · rw [if_neg h0]
        show s.selectedIndex - 1 < totalItems s
        omega
  · intro hv h0
    exact ⟨keydown_noitems s Key.arrowDown hv (by decide) h0,
           keydown_noitems s Key.arrowUp hv (by decide) h0⟩

/-- Witness for C8 (amended) on concrete states: a successful search
completion resets the index, reset resets the index, navigation stays
in range on three items, and navigation is a no-op on the empty initial
state. -/
theorem c8_selection_invariant_witness :
    (handleSearchComplete threeItemState (PendingKind.search ("q".toList))
        (Outcome.okResults [appItem] 4)).selectedIndex = 0 ∧
    (resetAndHide threeItemState).1.selectedIndex = 0 ∧
    (handleKeydown threeItemState Key.arrowDown).1.selectedIndex
        < totalItems (handleKeydown threeItemState Key.arrowDown).1 ∧
    handleKeydown initState Key.arrowDown = (initState, []) := by
  have h3 := c8_selection_invariant threeItemState
  have h0 := c8_selection_invariant initState
  exact ⟨h3.1 ("q".toList) [appItem] 4, h3.2.2.1,
         (h3.2.2.2.1 rfl (by decide) (by decide)).1,
         (h0.2.2.2.2 rfl rfl).1⟩

theorem keydown_enter (s : SessionState) (r : SearchResult)
    (hv : s.view = View.launcher) (hsm : s.isScriptMode = false)
    (hr : s.results.get? s.selectedIndex = some r) :
    handleKeydown s Key.enter = handleActivateStart s r := by
  have hn : totalItems s ≠ 0 := by
    intro h0
    unfold totalItems at h0
    rw [hsm] at h0
    simp only [Bool.false_eq_true, if_false] at h0
    rw [List.length_eq_zero] at h0
    rw [h0] at hr
    simp at hr
  unfold handleKeydown
  rw [if_neg (by decide : ¬ (Key.enter = Key.ctrlComma))]
  rw [hv]
  rw [if_neg (by decide : ¬ (View.launcher = View.settings))]
  rw [if_neg hn]
  dsimp only
  rw [hsm]
  simp only [Bool.false_eq_true, if_false]
  rw [hr]

/-- C2 counterexample.  Two Enter presses in the same tick (no
settlement in between) on the same selected launch item: each press
runs `handleActivate`, which sets `actionInFlight` but never checks it,
so *two* `launch_app` calls are issued — the claim demands exactly
one. -/
theorem c2_counterexample :
    (runKeys oneItemState [Key.enter, Key.enter]).2
      = [Effect.setGuard true, Effect.invokeLaunch ("firefox".toList),
         Effect.setGuard true, Effect.invokeLaunch ("firefox".toList)] ∧
    launchCount (runKeys oneItemState [Key.enter, Key.enter]).2 = 2 ∧
    (2 : Nat) ≠ 1 := by
  refine ⟨by decide, by decide, by decide⟩

/-- C2 (amended).  Activation sets `actionInFlight` to true before
invoking any backend call (the guard-set is the head of every
activation trace), but the flag is never consulted: even when
`actionInFlight` is already true, Enter on a selected launch item
starts another activation and issues another `launch_app` call — so two
Enter presses within one tick yield two calls, not one. -/
theorem c2_activation_not_guarded (s : SessionState) (r : SearchResult)
    (hv : s.view = View.launcher) (hsm : s.isScriptMode = false)
    (hr : s.results.get? s.selectedIndex = some r)
    (h1 : hasPre fillChars r.exec = false)
    (h2 : hasPre copyChars r.exec = false)
    (h3 : hasPre installChars r.exec = false)
    (h4 : ¬ r.source = ResultSource.file)
    (_hflight : s.actionInFlight = true) :
    handleKeydown s Key.enter
      = ({ s with actionInFlight := true },
         [Effect.setGuard true, Effect.invokeLaunch r.exec]) ∧
    (∀ (t : SessionState) (x : SearchResult),
      (handleActivateStart t x).2.head? = some (Effect.setGuard true) ∧
      (handleActivateStart t x).1.actionInFlight = true) := by
  refine ⟨?_, activateStart_guard_first⟩
  rw [keydown_enter s r hv hsm hr]
  unfold handleActivateStart
  rw [h1, h2, h3]
  simp only [Bool.false_eq_true, if_false]
  rw [if_neg h4]

/-- Witness for C2 (amended): Enter on a state whose `actionInFlight`
is already true still launches. -/
theorem c2_activation_not_guarded_witness :
    inFlightState.actionInFlight = true ∧
    handleKeydown inFlightState Key.enter
      = ({ inFlightState with actionInFlight := true },
         [Effect.setGuard true, Effect.invokeLaunch appItem.exec]) :=
  ⟨rfl, (c2_activation_not_guarded inFlightState appItem rfl rfl rfl
    (by decide) (by decide) (by decide) (by decide) rfl).1⟩

theorem keydown_tab_reduce (s : SessionState) (r : SearchResult) (sh : Bool)
    (hv : s.view = View.launcher) (hsm : s.isScriptMode = false)
    (hr : s.results.get? s.selectedIndex = some r) :
    handleKeydown s (Key.tab sh) =
      (if hasPre fillChars r.exec then handleActivateStart s r
       else if hasPre installChars r.exec then
         handleSearchStart { s with query := installQuery r.exec } (installQuery r.exec)
       else
         ((if sh then
             { s with selectedIndex :=
                 if s.selectedIndex = 0 then totalItems s - 1 else s.selectedIndex - 1 }
           else
             { s with selectedIndex := (s.selectedIndex + 1) % totalItems s }), [])) := by
  have hn : totalItems s ≠ 0 := by
    intro h0
    unfold totalItems at h0
    rw [hsm] at h0
    simp only [Bool.false_eq_true, if_false] at h0
    rw [List.length_eq_zero] at h0
    rw [h0] at hr
    simp at hr
  unfold handleKeydown
  rw [if_neg (by simp : ¬ (Key.tab sh = Key.ctrlComma))]
  rw [hv]
  rw [if_neg (by decide : ¬ (View.launcher = View.settings))]
  rw [if_neg hn]
  dsimp only
  rw [hsm]
  rw [hr]
  simp

/-- C7 counterexample.  On a selected `install:` item, Tab does *not*
trigger the same continuation behavior as activating the item:
activation invokes `launch_app` with the full `install:` exec, while
Tab instead rewrites the query to `"install <arg> "` and issues a
search — no `launch_app` call at all. -/
theorem c7_counterexample :
    (handleKeydown installState (Key.tab false)).2
      = [Effect.request (PendingKind.search ("install foo ".toList))] ∧
    launchCount (handleKeydown installState (Key.tab false)).2 = 0 ∧
    (handleActivateStart installState installItem).2
      = [Effect.setGuard true, Effect.invokeLaunch ("install:foo".toList)] ∧
    (handleKeydown installState (Key.tab false)).2
      ≠ (handleActivateStart installState installItem).2 := by
  refine ⟨by decide, by decide, by decide, by decide⟩

/-- C7 (amended).  In launcher mode (non-script, launcher view), Tab
and Shift+Tab both check the selected item's `exec`: with a `fill:`
prefix either of them runs the activation of that item (autocomplete)
without moving the selection; with an `install:` prefix either of them
rewrites the query to `"install <arg> "` and re-runs the search —
without moving the selection and without issuing the `launch_app` call
that activating the item would make; otherwise Tab moves the selection
exactly like ArrowDown and Shift+Tab exactly like ArrowUp. -/
theorem c7_tab_autocomplete (s : SessionState) (r : SearchResult) (sh : Bool)
    (hv : s.view = View.launcher) (hm : s.currentMode = CurMode.launcher)
    (hsm : s.isScriptMode = false)
    (hr : s.results.get? s.selectedIndex = some r) :
    (hasPre fillChars r.exec = true →
      handleKeydown s (Key.tab sh) = handleActivateStart s r ∧
      (handleKeydown s (Key.tab sh)).1.selectedIndex = s.selectedIndex) ∧
    (hasPre fillChars r.exec = false → hasPre installChars r.exec = true →
      handleKeydown s (Key.tab sh)
        = handleSearchStart { s with query := installQuery r.exec } (installQuery r.exec) ∧
      (handleKeydown s (Key.tab sh)).1.selectedIndex = s.selectedIndex ∧
      launchCount (handleKeydown s (Key.tab sh)).2 = 0) ∧
    (hasPre fillChars r.exec = false → hasPre installChars r.exec = false →
      (handleKeydown s (Key.tab false)).1
        = { s with selectedIndex := (s.selectedIndex + 1) % totalItems s } ∧
      (handleKeydown s (Key.tab true)).1
        = { s with selectedIndex :=
            if s.selectedIndex = 0 then totalItems s - 1 else s.selectedIndex - 1 }) := by
  refine ⟨?_, ?_, ?_⟩
  · intro hf
    rw [keydown_tab_reduce s r sh hv hsm hr]
    rw [hf]
    simp only [if_pos rfl]
    exact ⟨rfl, activateStart_sel s r hm⟩
  · intro hf hi
    rw [keydown_tab_reduce s r sh hv hsm hr]
    rw [hf, hi]
    simp only [Bool.false_eq_true, if_false, if_pos rfl]
    exact ⟨rfl, searchStart_sel _ _ hm, searchStart_launchCount _ _⟩
  · intro hf hi
    constructor
    · rw [keydown_tab_reduce s r false hv hsm hr]
      rw [hf, hi]
      simp only [Bool.false_eq_true, if_false]
    · rw [keydown_tab_reduce s r true hv hsm hr]
      rw [hf, hi]
      simp

/-- Witness for C7 (amended): Tab on a selected `fill:` item activates
it and leaves the selection in place. -/
theorem c7_tab_autocomplete_witness :
    hasPre fillChars fillItem.exec = true ∧
    handleKeydown fillState (Key.tab false) = handleActivateStart fillState fillItem ∧
    (handleKeydown fillState (Key.tab false)).1.selectedIndex = fillState.selectedIndex := by
  have h := (c7_tab_autocomplete fillState fillItem false rfl rfl rfl rfl).1 (by decide)
  exact ⟨by decide, h.1, h.2⟩

/-- C4 counterexample.  In launcher mode with a previously displayed
non-empty result list, a failing `search` completion does *not* leave
the prior items untouched: the catch block assigns `results = []`,
clearing the list. -/
theorem c4_counterexample :
    oneItemState.results = [appItem] ∧
    (handleSearchComplete oneItemState (PendingKind.search ("xyz".toList))
        (Outcome.failed ("backend down".toList))).results = [] ∧
    ([] : List SearchResult) ≠ [appItem] := by
  refine ⟨rfl, rfl, by decide⟩

/-- C4 (amended).  On a *suggestions* failure the prior list (and the
whole state) is left untouched, the error being only logged; on a
*search* failure the list is cleared to empty; in both cases the
latency metric ends up `null` (for the suggestions path it was already
cleared before the call was issued).  In Clipboard mode no search
backend call is made at all — `handleSearch` filters the cached history
synchronously — so no clipboard search failure exists. -/
theorem c4_search_failure (s : SessionState) (q msg : Str) :
    handleSearchComplete s (PendingKind.search q) (Outcome.failed msg)
      = { s with results := [], searchTime := none } ∧
    handleSearchComplete s PendingKind.suggestions (Outcome.failed msg) = s ∧
    (s.currentMode = CurMode.clipboard →
      handleSearchStart s q = (updateClipboardSuggestions s q, [])) := by
  refine ⟨rfl, rfl, fun hclip => ?_⟩
  unfold handleSearchStart
  rw [if_pos hclip]

/-- Witness for C4 (amended) at concrete inputs in clipboard mode. -/
theorem c4_search_failure_witness :
    handleSearchComplete clipState (PendingKind.search ("q".toList))
        (Outcome.failed ("e".toList))
      = { clipState with results := [], searchTime := none } ∧
    handleSearchComplete clipState PendingKind.suggestions
        (Outcome.failed ("e".toList)) = clipState ∧
    handleSearchStart clipState ("q".toList)
      = (updateClipboardSuggestions clipState ("q".toList), []) := by
  have h := c4_search_failure clipState ("q".toList) "e".toList
  exact ⟨h.1, h.2.1, h.2.2 rfl⟩

/-! ## Debounce lemmas -/

theorem cancelCurrent_empty (s : DebState) (h : DebInv s) :
    (match s.current with
     | some id => s.live.erase id
     | none => s.live) = ([] : List Nat) := by
  cases h with
  | inl h0 =>
    rw [h0]
    cases s.current with
    | none => rfl
    | some id => simp
  | inr h1 =>
    obtain ⟨i, hli, hc⟩ := h1
    rw [hc, hli]
    simp

theorem handleInput_live (s : DebState) (q : Str) (h : DebInv s) :
    (handleInput s q).live = [s.nextId] := by
  unfold handleInput
  dsimp only
  rw [cancelCurrent_empty s h]
  rfl

theorem debInv_handleInput (s : DebState) (q : Str) (h : DebInv s) :
    DebInv (handleInput s q) := by
  right
  exact ⟨s.nextId, handleInput_live s q h, rfl⟩

theorem debInv_fireTimer (s : DebState) (id : Nat) (h : DebInv s) :
    DebInv (fireTimer s id) := by
  unfold fireTimer
  by_cases hin : id ∈ s.live
  · rw [if_pos hin]
    cases h with
    | inl h0 => rw [h0] at hin; simp at hin
    | inr h1 =>
      obtain ⟨i, hl, hc⟩ := h1
      left
      rw [hl] at hin
      have hid : id = i := by simpa using hin
      rw [hl, hid]
      simp
  · rw [if_neg hin]
    exact h

theorem debInv_run : ∀ (evs : List DebEv) (s : DebState), DebInv s → DebInv (debRun s evs)
  | [], _, h => h
  | e :: evs, s, h => by
    have h1 : DebInv (debStep s e) := by
      cases e with
      | key q => exact debInv_handleInput s q h
      | fire id => exact debInv_fireTimer s id h
    exact debInv_run evs (debStep s e) h1

theorem debInv_init : DebInv debInit := Or.inl rfl

theorem debRun_keys (q0 : Str) : ∀ (qs : List Str) (s : DebState), DebInv s →
    debRun s ((qs ++ [q0]).map DebEv.key)
      = { query := q0, current := some (s.nextId + qs.length),
          nextId := s.nextId + qs.length + 1,
          live := [s.nextId + qs.length], calls := s.calls }
  | [], s, h => by
    show handleInput s q0 = _
    unfold handleInput
    dsimp only
    rw [cancelCurrent_empty s h]
    simp
  | q :: qs, s, h => by
    show debRun (handleInput s q) ((qs ++ [q0]).map DebEv.key) = _
    rw [debRun_keys q0 qs (handleInput s q) (debInv_handleInput s q h)]
    have hn : (handleInput s q).nextId = s.nextId + 1 := rfl
    have hc : (handleInput s q).calls = s.calls := rfl
    rw [hn, hc]
    simp only [List.length_cons]
    have h1 : s.nextId + 1 + qs.length = s.nextId + (qs.length + 1) := by omega
    rw [h1]

/-- C5. Debounce coalescing: each keystroke cancels and restarts the
single debounce timer, so (a) at no time are two debounce timers live
concurrently; (b) for any sequence of `n ≥ 1` keystrokes arriving
within the debounce window (no timer firing in between), no `onSearch`
call is made until the surviving timer fires, and the fire produces
*exactly one* call, carrying the final query string; (c) the search the
controller then issues for that (non-empty, non-script, launcher-mode)
final query is the single backend `search` call for that string. -/
theorem c5_debounce_coalescing :
    (∀ evs : List DebEv, (debRun debInit evs).live.length ≤ 1) ∧
    (∀ (qs : List Str) (q0 : Str),
      (debRun debInit ((qs ++ [q0]).map DebEv.key)).calls = [] ∧
      (fireCurrent (debRun debInit ((qs ++ [q0]).map DebEv.key))).calls = [q0]) ∧
    (∀ (t : SessionState) (q : Str), t.currentMode = CurMode.launcher →
      ¬ jsTrim q = [] → detectScriptQuery t.availableScripts q = none →
      (handleSearchStart t q).2 = [Effect.request (PendingKind.search q)]) := by
  refine ⟨?_, ?_, ?_⟩
  · intro evs
    have h := debInv_run evs debInit debInv_init
    cases h with
    | inl h0 => rw [h0]; decide
    | inr h1 => obtain ⟨i, hl, _⟩ := h1; rw [hl]; simp
  · intro qs q0
    rw [debRun_keys q0 qs debInit debInv_init]
    constructor
    · rfl
    · unfold fireCurrent fireTimer
      simp [debInit]
  · intro t q hm hq hd
    unfold handleSearchStart
    rw [hm]
    rw [if_neg (by decide : ¬ (CurMode.launcher = CurMode.clipboard))]
    rw [if_neg hq]
    rw [hd]

/-- Witness for C5: five keystrokes within the window, then the timer
fires — exactly one `onSearch` call, for the final string `"abcde"`,
and the controller turns it into the single `search("abcde")` request. -/
theorem c5_debounce_coalescing_witness :
    (debRun debInit ((["a".toList, "ab".toList, "abc".toList, "abcd".toList]
        ++ ["abcde".toList]).map DebEv.key)).calls = [] ∧
    (fireCurrent (debRun debInit ((["a".toList, "ab".toList, "abc".toList, "abcd".toList]
        ++ ["abcde".toList]).map DebEv.key))).calls = ["abcde".toList] ∧
    (handleSearchStart initState ("abcde".toList)).2
      = [Effect.request (PendingKind.search ("abcde".toList))] := by
  have h := c5_debounce_coalescing
  have hb := h.2.1 ["a".toList, "ab".toList, "abc".toList, "abcd".toList] "abcde".toList
  exact ⟨hb.1, hb.2, h.2.2 initState ("abcde".toList) rfl (by decide) (by decide)⟩
